import Mathlib

/-!
# Verification of the LMArenaBridge unified entry point (src/main.py)

A shallow embedding of the gateway in `src/main.py`: the routing function,
the HTTP forwarder, the WebSocket bridge session, the health check, and the
child-process supervisor.  Each definition is translated from the Python
source; theorems settle the specification's claims about it.
-/

namespace LMArenaBridge

/-- The two backend targets of the gateway (src/main.py lines 157-162):
`API` is the API server, `DASHBOARD` the dashboard server. -/
inductive Backend
  | API
  | DASHBOARD
deriving DecidableEq, Repr

/-- Python's `str.startswith`, executable by structural recursion over the
character lists so that concrete paths evaluate. -/
def startswith (s pre : String) : Bool :=
  pre.data.isPrefixOf s.data

/-- Python's `str.lower()`, executable by structural recursion; the header
values involved are ASCII, where `Char.toLower` matches Python's lowering. -/
def lower (s : String) : String :=
  String.mk (s.data.map Char.toLower)

/-- Request classification, from `proxy_request` (src/main.py lines 157-162):
`if path.startswith("ws") or path.startswith("v1/") or path.startswith("internal/")`
selects the API server, every other path the dashboard server.  `path` is the
route parameter of the catch-all route, i.e. the URL path without its leading
slash. -/
def classify (path : String) : Backend :=
  if startswith path "ws" || startswith path "v1/" || startswith path "internal/" then
    Backend.API
  else
    Backend.DASHBOARD

/-- Human-readable backend name, from the `backend_name` variable of
`proxy_request` (src/main.py lines 159, 162). -/
def backendName : Backend → String
  | Backend.API => "API"
  | Backend.DASHBOARD => "DASHBOARD"

/-- Base URL of the selected backend (src/main.py lines 157-162): the API
server's URL for API-classified paths, the dashboard server's URL otherwise.
The two URLs come from the environment (`API_SERVER_URL`,
`DASHBOARD_SERVER_URL`), so they are parameters here. -/
def target_url (apiServerUrl dashboardServerUrl : String) (path : String) : String :=
  match classify path with
  | Backend.API => apiServerUrl
  | Backend.DASHBOARD => dashboardServerUrl

/-- Full upstream URL built in `proxy_request` (src/main.py lines 164-167):
`url = f"{target_url}/{path}"` and, when the query string is non-empty,
`url += f"?{request.url.query}"`. -/
def build_url (targetUrl path query : String) : String :=
  let url := targetUrl ++ "/" ++ path
  if query ≠ "" then url ++ "?" ++ query else url

/-- Look a key up in a header mapping.  Headers are modelled as association
lists with lowercase keys, as Starlette normalises header names; the first
binding for a key wins. -/
def headerGet (hs : List (String × String)) (k : String) : Option String :=
  (hs.find? (fun q => q.1 == k)).map Prod.snd

/-- Headers prepared for the upstream request (src/main.py lines 172-174):
`headers = dict(request.headers)` followed by `headers.pop("host", None)` —
every client header is kept except `host`, which is removed. -/
def forward_headers (hs : List (String × String)) : List (String × String) :=
  hs.filter (fun q => !(q.1 == "host"))

/-- An inbound client request as the gateway sees it: the method, the path
(without leading slash), the raw query string, the header mapping and the body
bytes (bytes are modelled as an opaque `String`). -/
structure ProxiedRequest where
  method : String
  path : String
  query : String
  headers : List (String × String)
  body : String
deriving DecidableEq, Repr

/-- The request `proxy_request` issues upstream via `client.request`
(src/main.py lines 227-233). -/
structure UpstreamRequest where
  method : String
  url : String
  headers : List (String × String)
  body : String
deriving DecidableEq, Repr

/-- Assembly of the upstream request in `proxy_request` (src/main.py lines
164-174 and 227-233): same method, URL built from the routed target plus path
and query, client headers minus `host`, and the body passed through. -/
def build_upstream_request (apiUrl dashUrl : String) (r : ProxiedRequest) : UpstreamRequest :=
  { method := r.method
    url := build_url (target_url apiUrl dashUrl r.path) r.path r.query
    headers := forward_headers r.headers
    body := r.body }

/-- WebSocket-upgrade detection (src/main.py line 177):
`request.headers.get("upgrade", "").lower() == "websocket"`. -/
def is_ws_upgrade (hs : List (String × String)) : Bool :=
  lower ((headerGet hs "upgrade").getD "") == "websocket"

/-- The upstream WebSocket endpoint (src/main.py line 186):
`ws_url = f"ws://127.0.0.1:5102/ws"` — a literal, evaluated in a context where
both the request path and `API_SERVER_URL` are in scope but unused. -/
def ws_url (_path _apiServerUrl : String) : String :=
  "ws://127.0.0.1:5102/ws"

/-- A response received from an upstream backend: status code, header mapping,
and the body as the sequence of chunks the upstream produces. -/
structure UpstreamResponse where
  status : Nat
  headers : List (String × String)
  chunks : List String
deriving DecidableEq, Repr

/-- Body of the response returned to the client: either a lazy forward-only
sequence of chunks (`StreamingResponse`, src/main.py lines 237-246) or one
fully materialised buffer (`Response`, lines 249-254). -/
inductive Body
  | streamed (chunks : List String)
  | buffered (bytes : String)
deriving DecidableEq, Repr

/-- The response the gateway returns to the client. -/
structure ProxiedResponse where
  status : Nat
  headers : List (String × String)
  body : Body
deriving DecidableEq, Repr

/-- Content type of an upstream response (src/main.py line 236):
`response.headers.get("content-type", "")`. -/
def content_type (r : UpstreamResponse) : String :=
  (headerGet r.headers "content-type").getD ""

/-- Relay of a successful upstream response (src/main.py lines 236-254): when
the content type starts with `text/event-stream` the chunks are streamed as
they arrive; otherwise the whole body is returned as one buffer.  Status code
and headers are copied in both branches. -/
def relay_response (r : UpstreamResponse) : ProxiedResponse :=
  if startswith (content_type r) "text/event-stream" then
    { status := r.status, headers := r.headers, body := Body.streamed r.chunks }
  else
    { status := r.status, headers := r.headers, body := Body.buffered (String.join r.chunks) }

/-- Outcome of the single upstream call made by `proxy_request`: either a
response, or an `httpx.RequestError` (connect failure or timeout). -/
inductive UpstreamResult
  | ok (resp : UpstreamResponse)
  | requestError (msg : String)
deriving DecidableEq, Repr

/-- Body of the synthesized 503 (src/main.py line 259):
`f"Backend server ({backend_name}) unavailable"`. -/
def unavailable_body (b : Backend) : String :=
  "Backend server (" ++ backendName b ++ ") unavailable"

/-- HTTP forwarding result (src/main.py lines 225-261): a successful upstream
response is relayed; an `httpx.RequestError` is caught and turned into a
synthesized 503 naming the backend.  The function is total: no failure
propagates past the request boundary, and exactly one upstream outcome is
consumed — there is no retry. -/
def forward (b : Backend) (result : UpstreamResult) : ProxiedResponse :=
  match result with
  | UpstreamResult.ok resp => relay_response resp
  | UpstreamResult.requestError _ =>
      { status := 503, headers := [], body := Body.buffered (unavailable_body b) }

/-- The proxying client's overall timeout in seconds (src/main.py line 140):
`httpx.AsyncClient(timeout=360.0)`. -/
def CLIENT_TIMEOUT : Nat := 360

/-- Per-probe timeout in seconds used by the health check (src/main.py lines
268-269): each `client.get(..., timeout=5.0)` carries its own. -/
def PROBE_TIMEOUT : Nat := 5

/-- What the gateway does with an inbound request (src/main.py lines 177,
186, 227): a request whose `upgrade` header says `websocket` is bridged to
the fixed WebSocket URL; every other request is forwarded over HTTP. -/
inductive ProxyAction
  | bridge (wsUrl : String)
  | http (upstream : UpstreamRequest)
deriving DecidableEq, Repr

/-- Dispatch of `proxy_request` (src/main.py lines 177-233). -/
def proxy_dispatch (apiUrl dashUrl : String) (r : ProxiedRequest) : ProxyAction :=
  if is_ws_upgrade r.headers then
    ProxyAction.bridge (ws_url r.path apiUrl)
  else
    ProxyAction.http (build_upstream_request apiUrl dashUrl r)

/-- Completion semantics of `asyncio.gather(forward_to_backend(),
forward_to_client(), return_exceptions=True)` (src/main.py lines 212-216):
given the step at which each forwarding loop ends (`none` if its source never
closes, errors or sends), the gather completes once BOTH have ended, at the
later of the two; it never completes if either loop never ends.
`return_exceptions=True` makes an exception count as a normal ending, which
the per-loop `except` clauses already ensure. -/
def gather_completion (tA tB : Option Nat) : Option Nat :=
  match tA, tB with
  | some a, some b => some (max a b)
  | _, _ => none

/-- Session teardown record: when it happens and which connections are
closed. -/
structure Teardown where
  time : Nat
  clientClosed : Bool
  backendClosed : Bool
deriving DecidableEq, Repr

/-- One WebSocket bridge session (src/main.py lines 188-222), as a function of
the ending steps of the two forwarding loops: the `async with` block closes
the backend connection and the `finally` closes the client connection, but
only once the `gather` over both loops has completed.  If either loop never
ends, teardown never happens. -/
def run_session (tA tB : Option Nat) : Option Teardown :=
  match gather_completion tA tB with
  | some t => some { time := t, clientClosed := true, backendClosed := true }
  | none => none

/-- Result of one health probe `client.get(...)`: a completed response with
some status code, or a raised exception (network error or timeout). -/
inductive ProbeResult
  | status (code : Nat)
  | exn (msg : String)
deriving DecidableEq, Repr

/-- What `health_check` returns (src/main.py lines 263-282): a JSON object
(FastAPI serialises the dict with HTTP 200), or a plain-text `Response` with
status 503. -/
inductive HealthReply
  | json (status api_server dashboard_server : String) (port : Nat)
  | errorText (body : String)
deriving DecidableEq, Repr

/-- `health_check` (src/main.py lines 263-282): probes the API server first,
then the dashboard server, both inside one `try`.  If both probes complete,
it returns the JSON dict, each backend field `"online"` when its probe's
status code is 200 and `"degraded"` otherwise.  If either probe raises, the
single `except` returns a 503 text response; when the API probe raises the
dashboard probe is never reached. -/
def health_check (api dash : ProbeResult) (port : Nat) : HealthReply :=
  match api with
  | ProbeResult.exn e => HealthReply.errorText ("Health check failed: " ++ e)
  | ProbeResult.status a =>
      match dash with
      | ProbeResult.exn e => HealthReply.errorText ("Health check failed: " ++ e)
      | ProbeResult.status d =>
          HealthReply.json "healthy"
            (if a == 200 then "online" else "degraded")
            (if d == 200 then "online" else "degraded")
            port

/-- HTTP status of a health reply: FastAPI returns the JSON dict with 200;
the explicit error `Response` carries 503. -/
def health_http_status : HealthReply → Nat
  | HealthReply.json _ _ _ _ => 200
  | HealthReply.errorText _ => 503

/-- Which backends are actually probed (src/main.py lines 268-269): the API
probe runs first; if it raises, control jumps to `except` and the dashboard
probe never runs. -/
def health_probes_performed (api : ProbeResult) : List Backend :=
  match api with
  | ProbeResult.exn _ => [Backend.API]
  | ProbeResult.status _ => [Backend.API, Backend.DASHBOARD]

/-- How an OS process reacts to the stop sequence. -/
inductive ProcBehavior
  | exitsWithinGrace
  | ignoresTerminate
  | vanished
deriving DecidableEq, Repr

/-- A child-process handle: `returncode` is `none` while the process has not
been reaped (as in `asyncio.subprocess.Process.returncode`), together with the
process's reaction to signals. -/
structure ProcHandle where
  returncode : Option Int
  behavior : ProcBehavior
deriving DecidableEq, Repr

/-- Outcome of stopping one backend process.  There is no error constructor:
every exception in `stop_backend_servers` is caught, so stopping always
returns normally. -/
inductive StopOutcome
  | stoppedGracefully
  | forceKilled
  | alreadyExited
  | alreadyGone
deriving DecidableEq, Repr

/-- The grace period in seconds (src/main.py lines 84 and 99):
`asyncio.wait_for(process.wait(), timeout=5.0)`. -/
def GRACE_PERIOD : Nat := 5

/-- Stop sequence for one backend process (src/main.py lines 80-93, identical
for the dashboard at 95-108): skip everything when `returncode` is already
set; otherwise `terminate()`, wait up to the grace period, and on
`asyncio.TimeoutError` send `kill()`; `ProcessLookupError` at any point is
caught and treated as the process being already gone. -/
def stop_one (h : ProcHandle) : StopOutcome :=
  match h.returncode with
  | some _ => StopOutcome.alreadyExited
  | none =>
      match h.behavior with
      | ProcBehavior.exitsWithinGrace => StopOutcome.stoppedGracefully
      | ProcBehavior.ignoresTerminate => StopOutcome.forceKilled
      | ProcBehavior.vanished => StopOutcome.alreadyGone

/-- Signals delivered to the process by the stop sequence. -/
inductive Sig
  | sigterm
  | sigkill
deriving DecidableEq, Repr

/-- Which signals the stop sequence delivers (src/main.py lines 82-88): none
when the process already exited or has vanished; `terminate` alone when it
exits within the grace period; `terminate` then `kill` when it ignores the
graceful request. -/
def signals_sent (h : ProcHandle) : List Sig :=
  match h.returncode with
  | some _ => []
  | none =>
      match h.behavior with
      | ProcBehavior.exitsWithinGrace => [Sig.sigterm]
      | ProcBehavior.ignoresTerminate => [Sig.sigterm, Sig.sigkill]
      | ProcBehavior.vanished => []

/-- Elapsed time before `kill()` is sent, when it is: the `asyncio.wait_for`
timeout must expire first, so the kill happens at the grace period, not
immediately. -/
def kill_delay (h : ProcHandle) : Option Nat :=
  match stop_one h with
  | StopOutcome.forceKilled => some GRACE_PERIOD
  | _ => none

/-- A child process's standard streams. -/
inductive Stream
  | stdout
  | stderr
deriving DecidableEq, Repr

/-- Streams captured at spawn (src/main.py lines 41-53): both `stdout` and
`stderr` are set to `PIPE` for each child process. -/
def captured_streams : List Stream := [Stream.stdout, Stream.stderr]

/-- Streams that a background log-relay task reads (src/main.py lines 60-61
and 67): one task is created per process, and `log_subprocess_output` reads
only `process.stdout`. -/
def relayed_streams : List Stream := [Stream.stdout]

/-- One observation of `process.stdout.readline()`: a decoded, stripped line,
end of stream (empty read), or a raised read error. -/
inductive ReadEvent
  | line (s : String)
  | eof
  | err (msg : String)
deriving DecidableEq, Repr

/-- The relay loop of `log_subprocess_output` (src/main.py lines 63-74) over
the stream's sequence of read events: every line is logged with the service
name prefix; an empty read (EOF) breaks the loop; a read exception is logged
and breaks the loop — the task returns normally in every case, so nothing
escapes to the supervisor. -/
def log_subprocess_output (name : String) : List ReadEvent → List String
  | [] => []
  | ReadEvent.line s :: rest => ("[" ++ name ++ "] " ++ s) :: log_subprocess_output name rest
  | ReadEvent.eof :: _ => []
  | ReadEvent.err e :: _ => ["Error reading " ++ name ++ " output: " ++ e]

end LMArenaBridge

namespace LMArenaBridge

/-- C1: the routing function is total and deterministic: it selects the API
server exactly when the path starts with `ws`, `v1/` or `internal/`, and the
dashboard server for every other path.  Totality and determinism hold because
`classify` is a pure Lean function of the path alone; the two equivalences
characterise its value on every path. -/
theorem classify_total_deterministic (p : String) :
    (classify p = Backend.API ↔
      (startswith p "ws" = true ∨ startswith p "v1/" = true ∨
        startswith p "internal/" = true)) ∧
    (classify p = Backend.DASHBOARD ↔
      ¬(startswith p "ws" = true ∨ startswith p "v1/" = true ∨
        startswith p "internal/" = true)) := by
  cases hws : startswith p "ws" <;>
    cases hv1 : startswith p "v1/" <;>
      cases hint : startswith p "internal/" <;>
        simp [classify, hws, hv1, hint]

/-- C2 counterexample: the claim says the session terminates as soon as either
forwarding loop ends; but with the client→upstream loop ended at step 0 and
the upstream→client loop never ending (the backend neither sends nor closes),
`asyncio.gather` never completes and the session is never torn down. -/
theorem session_early_termination_counterexample :
    run_session (some 0) none = none ∧ (some 0 : Option Nat).isSome = true := by
  exact ⟨rfl, rfl⟩

/-- C2 amended: the session terminates exactly when BOTH forwarding loops have
ended, at the later of the two endings — a loop's ending does not cancel the
other loop, so a fault in one direction leaves the session alive until the
other direction's loop ends on its own; when termination does happen, both
the client and the upstream connection are closed and both loops have already
settled. -/
theorem session_termination (a b : Nat) :
    run_session (some a) (some b) =
      some { time := max a b, clientClosed := true, backendClosed := true } ∧
    run_session (some a) none = none ∧
    run_session none (some b) = none ∧
    run_session none none = none := by
  exact ⟨rfl, rfl, rfl, rfl⟩

/-- C3 counterexample: the claim says `/health` answers HTTP 503 whenever a
probe returns a non-success status; but when the API probe completes with
status 500 and the dashboard probe with 200, `health_check` returns the JSON
dict — serialised by FastAPI with HTTP 200 — merely marking the API server
`"degraded"`. -/
theorem health_status_counterexample :
    health_check (ProbeResult.status 500) (ProbeResult.status 200) 10000 =
      HealthReply.json "healthy" "degraded" "online" 10000 ∧
    health_http_status
      (health_check (ProbeResult.status 500) (ProbeResult.status 200) 10000) = 200 := by
  exact ⟨rfl, rfl⟩

/-- C3 amended: `GET /health` answers with the JSON object
`{status, api_server, dashboard_server, port}` and HTTP 200 whenever both
probes complete — each backend field `"online"` if its probe's status code is
200 and `"degraded"` otherwise, even when a probe returned a non-success
status; HTTP 503 with the diagnostic text `Health check failed: ...` exactly
when a probe raises (network error or timeout). -/
theorem health_check_responses (a d port : Nat) (e : String) (x : ProbeResult) :
    health_check (ProbeResult.status a) (ProbeResult.status d) port =
      HealthReply.json "healthy"
        (if a == 200 then "online" else "degraded")
        (if d == 200 then "online" else "degraded") port ∧
    health_http_status (health_check (ProbeResult.status a) (ProbeResult.status d) port)
      = 200 ∧
    health_check (ProbeResult.exn e) x port =
      HealthReply.errorText ("Health check failed: " ++ e) ∧
    health_http_status (health_check (ProbeResult.exn e) x port) = 503 ∧
    health_check (ProbeResult.status a) (ProbeResult.exn e) port =
      HealthReply.errorText ("Health check failed: " ++ e) ∧
    health_http_status (health_check (ProbeResult.status a) (ProbeResult.exn e) port)
      = 503 := by
  exact ⟨rfl, rfl, rfl, rfl, rfl, rfl⟩

/-- C4 counterexample: the claim says a network error or timeout on one
upstream marks only that upstream `"degraded"` while the healthy one is still
probed and reported `"online"`; but when the API probe raises, `health_check`
returns the bare 503 diagnostic — no per-upstream marking at all — and the
dashboard server is never probed. -/
theorem health_isolation_counterexample :
    health_check (ProbeResult.exn "timeout") (ProbeResult.status 200) 10000 =
      HealthReply.errorText "Health check failed: timeout" ∧
    Backend.DASHBOARD ∉ health_probes_performed (ProbeResult.exn "timeout") := by
  exact ⟨rfl, by decide⟩

/-- C4 amended: only a probe that COMPLETES with a non-success status marks
just that upstream `"degraded"` while the healthy one reports `"online"`; a
network error or timeout on either probe instead aborts the composite with a
503 diagnostic and no per-upstream marking, and an API-probe failure skips
the dashboard probe entirely.  Each probe carries its own 5-second timeout,
distinct from the forwarding client's 360-second timeout, and no probe
failure raises past `health_check` (it is a total function returning a
reply in every case). -/
theorem health_probe_isolation (port c : Nat) (e : String) :
    health_check (ProbeResult.status 500) (ProbeResult.status 200) port =
      HealthReply.json "healthy" "degraded" "online" port ∧
    health_check (ProbeResult.status 200) (ProbeResult.status 404) port =
      HealthReply.json "healthy" "online" "degraded" port ∧
    health_check (ProbeResult.exn e) (ProbeResult.status c) port =
      HealthReply.errorText ("Health check failed: " ++ e) ∧
    health_probes_performed (ProbeResult.exn e) = [Backend.API] ∧
    health_probes_performed (ProbeResult.status c) = [Backend.API, Backend.DASHBOARD] ∧
    PROBE_TIMEOUT = 5 ∧ PROBE_TIMEOUT ≠ CLIENT_TIMEOUT := by
  refine ⟨rfl, rfl, rfl, rfl, rfl, rfl, by decide⟩

/-- C5: when the upstream call fails with an `httpx.RequestError` (the backend
unreachable or timed out), `forward` returns a synthesized response with
status 503 whose buffered body names the failing backend — `API` or
`DASHBOARD` — verbatim; `forward` is a total function of one upstream outcome,
so it never retries and never lets the failure escape the request boundary. -/
theorem forward_unreachable_503 (b : Backend) (e : String) :
    forward b (UpstreamResult.requestError e) =
      { status := 503, headers := [],
        body := Body.buffered ("Backend server (" ++ backendName b ++ ") unavailable") } ∧
    unavailable_body Backend.API = "Backend server (API) unavailable" ∧
    unavailable_body Backend.DASHBOARD = "Backend server (DASHBOARD) unavailable" := by
  exact ⟨rfl, rfl, rfl⟩

/-- C6: the upstream body is relayed as a lazy sequence of chunks exactly when
the upstream content type starts with `text/event-stream`; in every other
case the chunks are concatenated into one atomic buffer; in both cases the
upstream's status code and headers are reproduced unchanged. -/
theorem relay_streaming (r : UpstreamResponse) :
    ((relay_response r).body = Body.streamed r.chunks ↔
      startswith (content_type r) "text/event-stream" = true) ∧
    ((relay_response r).body = Body.buffered (String.join r.chunks) ↔
      ¬(startswith (content_type r) "text/event-stream" = true)) ∧
    (relay_response r).status = r.status ∧
    (relay_response r).headers = r.headers := by
  cases hct : startswith (content_type r) "text/event-stream" <;>
    simp [relay_response, hct]

/-- Header lookup after the `host` pop of src/main.py line 174: the `host`
key is gone and every other key is bound exactly as in the client's
headers. -/
theorem headerGet_forward_headers (hs : List (String × String)) (k : String) :
    headerGet (forward_headers hs) k =
      if k = "host" then none else headerGet hs k := by
  induction hs with
  | nil =>
      by_cases hk : k = "host" <;> simp [forward_headers, headerGet, hk]
  | cons q t ih =>
      rcases q with ⟨a, v⟩
      by_cases ha : a = "host" <;> by_cases hak : a = k <;>
        simp_all [forward_headers, headerGet, List.filter_cons, List.find?_cons]

/-- C7: the request sent upstream preserves the client's method, body and
path-plus-query byte for byte — the URL is the routed target's base URL, a
slash, the original path, and (when non-empty) `?` plus the original query —
and every client header except `host` is forwarded unchanged, while `host`
itself is absent from the forwarded headers, so the client-supplied host
value is never what the upstream sees. -/
theorem forward_request_preservation (apiUrl dashUrl : String) (r : ProxiedRequest)
    (k : String) (hk : k ≠ "host") :
    (build_upstream_request apiUrl dashUrl r).method = r.method ∧
    (build_upstream_request apiUrl dashUrl r).body = r.body ∧
    (if r.query ≠ "" then
      (build_upstream_request apiUrl dashUrl r).url =
        target_url apiUrl dashUrl r.path ++ "/" ++ r.path ++ "?" ++ r.query
     else
      (build_upstream_request apiUrl dashUrl r).url =
        target_url apiUrl dashUrl r.path ++ "/" ++ r.path) ∧
    headerGet (build_upstream_request apiUrl dashUrl r).headers "host" = none ∧
    headerGet (build_upstream_request apiUrl dashUrl r).headers k = headerGet r.headers k := by
  refine ⟨rfl, rfl, ?_, ?_, ?_⟩
  · by_cases hq : r.query = "" <;> simp [build_upstream_request, build_url, hq]
  · simpa using headerGet_forward_headers r.headers "host"
  · simpa [hk] using headerGet_forward_headers r.headers k

/-- C7 witness: a concrete request whose `content-type` header survives
forwarding unchanged while its `host` header is dropped. -/
theorem forward_request_preservation_witness :
    ("content-type" : String) ≠ "host" ∧
    headerGet (build_upstream_request "http://127.0.0.1:5102" "http://127.0.0.1:5105"
        { method := "POST", path := "v1/chat/completions", query := "stream=true",
          headers := [("host", "bridge.local"), ("content-type", "application/json")],
          body := "{}" }).headers "host" = none ∧
    headerGet (build_upstream_request "http://127.0.0.1:5102" "http://127.0.0.1:5105"
        { method := "POST", path := "v1/chat/completions", query := "stream=true",
          headers := [("host", "bridge.local"), ("content-type", "application/json")],
          body := "{}" }).headers "content-type" =
      headerGet [("host", "bridge.local"), ("content-type", "application/json")]
        "content-type" := by
  refine ⟨by decide, ?_, ?_⟩
  · exact (forward_request_preservation "http://127.0.0.1:5102" "http://127.0.0.1:5105"
      _ "content-type" (by decide)).2.2.2.1
  · exact (forward_request_preservation "http://127.0.0.1:5102" "http://127.0.0.1:5105"
      _ "content-type" (by decide)).2.2.2.2

/-- C8: stopping a backend process sends the graceful `terminate` and waits up
to the 5-second grace period; a process still alive after the grace period
receives `kill`, delivered only once the grace period has elapsed; a process
whose `returncode` is already set is skipped entirely — a success, with no
signal sent and no error, as is one that vanished before the signal landed
(`ProcessLookupError` is caught).  `stop_one` is total with no error outcome,
so stopping never raises. -/
theorem stop_backend_spec (c : Int) (b : ProcBehavior) :
    stop_one { returncode := some c, behavior := b } = StopOutcome.alreadyExited ∧
    signals_sent { returncode := some c, behavior := b } = [] ∧
    stop_one { returncode := none, behavior := ProcBehavior.exitsWithinGrace } =
      StopOutcome.stoppedGracefully ∧
    signals_sent { returncode := none, behavior := ProcBehavior.exitsWithinGrace } =
      [Sig.sigterm] ∧
    stop_one { returncode := none, behavior := ProcBehavior.ignoresTerminate } =
      StopOutcome.forceKilled ∧
    signals_sent { returncode := none, behavior := ProcBehavior.ignoresTerminate } =
      [Sig.sigterm, Sig.sigkill] ∧
    kill_delay { returncode := none, behavior := ProcBehavior.ignoresTerminate } =
      some GRACE_PERIOD ∧
    kill_delay { returncode := none, behavior := ProcBehavior.exitsWithinGrace } = none ∧
    stop_one { returncode := none, behavior := ProcBehavior.vanished } =
      StopOutcome.alreadyGone ∧
    GRACE_PERIOD = 5 := by
  exact ⟨rfl, rfl, rfl, rfl, rfl, rfl, rfl, rfl, rfl, rfl⟩

/-- C9 counterexample: the claim says a log-relay task is attached per output
stream, both standard output and standard error; but while both streams are
piped at spawn, the single relay task per process reads only `stdout` —
`stderr` is captured and never relayed. -/
theorem log_relay_counterexample :
    Stream.stderr ∈ captured_streams ∧ Stream.stderr ∉ relayed_streams := by
  exact ⟨by decide, by decide⟩

/-- C9 amended: the supervisor attaches one background log-relay task per
child process, reading only that process's standard output (standard error is
piped at spawn but never relayed); the relay logs each line until the stream
closes or a read error occurs, and a read error is logged and terminates only
that relay loop — the task returns normally in every case, so the failure
never reaches the supervisor. -/
theorem log_relay_behaviour (name s e : String) (rest : List ReadEvent) :
    captured_streams = [Stream.stdout, Stream.stderr] ∧
    relayed_streams = [Stream.stdout] ∧
    log_subprocess_output name (ReadEvent.line s :: rest) =
      ("[" ++ name ++ "] " ++ s) :: log_subprocess_output name rest ∧
    log_subprocess_output name (ReadEvent.eof :: rest) = [] ∧
    log_subprocess_output name (ReadEvent.err e :: rest) =
      ["Error reading " ++ name ++ " output: " ++ e] := by
  exact ⟨rfl, rfl, rfl, rfl, rfl⟩

/-- C10: every request whose `upgrade` header says `websocket` is bridged to
the literal endpoint `ws://127.0.0.1:5102/ws`, whatever its path and whatever
`API_SERVER_URL` is configured to — while the HTTP forwarding target for an
API-classified path does follow `API_SERVER_URL`, so changing that variable
redirects HTTP forwarding but never WebSocket bridging. -/
theorem ws_bridge_fixed_endpoint (apiA apiB dash : String) (r : ProxiedRequest)
    (h : is_ws_upgrade r.headers = true) :
    proxy_dispatch apiA dash r = ProxyAction.bridge "ws://127.0.0.1:5102/ws" ∧
    proxy_dispatch apiB dash r = ProxyAction.bridge "ws://127.0.0.1:5102/ws" ∧
    target_url apiA dash "v1/models" = apiA ∧
    target_url apiB dash "v1/models" = apiB := by
  refine ⟨?_, ?_, rfl, rfl⟩ <;> simp [proxy_dispatch, h, ws_url]

/-- C10 witness: a concrete upgrade request on a dashboard-looking path is
bridged to the fixed endpoint even with `API_SERVER_URL` pointing
elsewhere. -/
theorem ws_bridge_fixed_endpoint_witness :
    is_ws_upgrade [("upgrade", "websocket")] = true ∧
    proxy_dispatch "http://other-host:9999" "http://127.0.0.1:5105"
      { method := "GET", path := "some/page", query := "",
        headers := [("upgrade", "websocket")], body := "" } =
      ProxyAction.bridge "ws://127.0.0.1:5102/ws" := by
  refine ⟨by decide, ?_⟩
  exact (ws_bridge_fixed_endpoint "http://other-host:9999" "http://x" "http://127.0.0.1:5105"
    { method := "GET", path := "some/page", query := "",
      headers := [("upgrade", "websocket")], body := "" } (by decide)).1

end LMArenaBridge
